import Mathlib

/-!
Shallow embedding of the appointment lifecycle core of the salon-ERP
backend (src/services/notification.js, src/controllers/appointment.js,
src/utils/duration.js, src/utils/idGenerator.js), together with theorems
checking the natural-language specification against it.

Instants are modelled as rationals counting seconds (JS `Date` values are
millisecond-precision; all comparisons in the embedded code are order
comparisons, so the unit only fixes what "1 second" means in boundary
statements). Service durations parse to rational minutes (`parseFloat`
produces fractional values such as 1.5).
-/

namespace SalonERP

/-- The APPOINTMENT_STATUS enum of constants.js:
Upcoming, Completed, Ongoing, Cancelled. -/
inductive AppointmentStatus
  | upcoming
  | completed
  | ongoing
  | cancelled
deriving DecidableEq, Repr

/-- The paid-status enum used for `paidStatus` on appointments and the
`status` field of payments: paid, un-paid, processing. -/
inductive PaidStatus
  | paid
  | unPaid
  | processing
deriving DecidableEq, Repr

/-- Status classification performed inline in `scheduleAppointments`
(services/notification.js lines 251-259):
`now < start` gives Upcoming, `start <= now && now <= expiresAt` gives
Ongoing, otherwise Completed. -/
def classifyScheduleStatus (now start expiresAt : ℚ) : AppointmentStatus :=
  if now < start then .upcoming
  else if start ≤ now ∧ now ≤ expiresAt then .ongoing
  else .completed

/-- Status classification performed inline in `updateAppointmentService`
(services/notification.js lines 559-565):
`now >= start && now <= expiresAt` gives Ongoing, else `now > expiresAt`
gives Completed, else Upcoming. -/
def classifyUpdateStatus (now start expiresAt : ℚ) : AppointmentStatus :=
  if start ≤ now ∧ now ≤ expiresAt then .ongoing
  else if now > expiresAt then .completed
  else .upcoming

/-! ## Duration Resolver (src/utils/duration.js) -/

/-- Value of an ASCII digit character, `none` on anything `\d` would not
match. -/
def digitVal (c : Char) : Option Nat :=
  let n := c.toNat
  if 48 ≤ n ∧ n ≤ 57 then some (n - 48) else none

/-- Whether a character is matched by the regex class `\d`. -/
def isDigitChar (c : Char) : Bool := (digitVal c).isSome

/-- Whether a character is matched by the regex class `\s`
(ASCII whitespace forms). -/
def isSpaceChar (c : Char) : Bool :=
  c = ' ' || c = '\t' || c = '\n' || c = '\r' || c = '\x0b' || c = '\x0c'

/-- The literal unit alternatives of the duration regex
`(minutes?|mins?|hours?|hour|h|m)`, expanded. -/
def unitAlternatives : List String :=
  ["minutes", "minute", "mins", "min", "hours", "hour", "h", "m"]

/-- Shape part of the duration regex `^(\d+(?:\.\d+)?)\s*(...)$`: splits the
input into the numeric group's characters and the remaining token (after
optional whitespace) lowercased, or `none` when there is no leading
`\d+(?:\.\d+)?` group. -/
def matchDurationShape (cs : List Char) : Option (List Char × String) :=
  let intPart := cs.takeWhile isDigitChar
  let afterInt := cs.dropWhile isDigitChar
  if intPart.isEmpty then none
  else
    let (numChars, afterNum) :=
      match afterInt with
      | '.' :: r =>
        let fracPart := r.takeWhile isDigitChar
        if fracPart.isEmpty then (intPart, afterInt)
        else (intPart ++ '.' :: fracPart, r.dropWhile isDigitChar)
      | _ => (intPart, afterInt)
    let afterSpaces := afterNum.dropWhile isSpaceChar
    some (numChars, String.mk (afterSpaces.map Char.toLower))

/-- Model of `duration.match(/^(\d+(?:\.\d+)?)\s*(minutes?|mins?|hours?|hour|h|m)$/i)`:
the shape must match and the trailing token must be one of the unit
alternatives (case-insensitively; the code lowercases `match[2]` before
inspecting it). `none` models a failed match. -/
def matchDurationChars (cs : List Char) : Option (List Char × String) :=
  match matchDurationShape cs with
  | none => none
  | some (numChars, unit) =>
    if unit ∈ unitAlternatives then some (numChars, unit) else none

/-- The two failure modes of the Duration Resolver
(ERROR_MESSAGES.INVALID_DURATION_FORMAT and
ERROR_MESSAGES.UNSUPPORTED_DURATION_UNIT). -/
inductive DurationError
  | invalidDurationFormat
  | unsupportedDurationUnit
deriving DecidableEq, Repr

/-- Numeric value of a digit list (most significant first). -/
def natOfDigits (cs : List Char) : Nat :=
  cs.foldl (fun acc c => 10 * acc + ((digitVal c).getD 0)) 0

/-- `parseFloat` on the matched numeric group (digits with an optional
fractional part), as an exact rational. -/
def ratOfNumChars (cs : List Char) : ℚ :=
  let ip := cs.takeWhile isDigitChar
  match cs.dropWhile isDigitChar with
  | '.' :: f => (natOfDigits ip : ℚ) + (natOfDigits f : ℚ) / ((10 : ℚ) ^ f.length)
  | _ => (natOfDigits ip : ℚ)

/-- JS `String.prototype.startsWith`: the receiver begins with the given
search string. -/
def jsStartsWith (s pre : String) : Bool := pre.data.isPrefixOf s.data

instance {ε α : Type} [DecidableEq ε] [DecidableEq α] : DecidableEq (Except ε α)
  | .error a, .error b =>
    if h : a = b then isTrue (by rw [h]) else isFalse (by intro hh; cases hh; exact h rfl)
  | .error _, .ok _ => isFalse (by intro h; cases h)
  | .ok _, .error _ => isFalse (by intro h; cases h)
  | .ok a, .ok b =>
    if h : a = b then isTrue (by rw [h]) else isFalse (by intro hh; cases hh; exact h rfl)

/-- CLOCK.MINUTE in constants.js. -/
def clockMinuteToken : String := "min"

/-- CLOCK.HOUR in constants.js. -/
def clockHourToken : String := "hour"

/-- `parseDurationToMinutes` (src/utils/duration.js): match the anchored
regex, else InvalidDurationFormat; a unit starting with "min" is taken as
minutes, one starting with "hour" or "h" as hours (times 60), anything
else raises UnsupportedDurationUnit. -/
def parseDurationToMinutes (duration : String) : Except DurationError ℚ :=
  match matchDurationChars duration.data with
  | none => .error .invalidDurationFormat
  | some (numChars, unit) =>
    let value := ratOfNumChars numChars
    if jsStartsWith unit clockMinuteToken then .ok value
    else if jsStartsWith unit clockHourToken || jsStartsWith unit "h" then .ok (value * 60)
    else .error .unsupportedDurationUnit

/-! ## Time Normalizer

Wall-clock values and their conversion to UTC instants. Instants are
integer seconds since the Unix epoch (proleptic Gregorian calendar, as
used by JS `Date` and by moment). Asia/Kolkata has the constant offset
UTC+05:30, so interpreting a wall clock in that zone subtracts a fixed
19800 seconds. -/

/-- A wall-clock calendar date and time-of-day, minute precision (the
appointment input formats carry no seconds). -/
structure WallClock where
  year : Nat
  month : Nat
  day : Nat
  hour : Nat
  minute : Nat
deriving DecidableEq, Repr

/-- Gregorian leap-year rule. -/
def isLeapYear (y : Nat) : Bool :=
  (y % 4 = 0 && ¬ y % 100 = 0) || y % 400 = 0

/-- Number of days in a month of a given year. -/
def daysInMonth (y m : Nat) : Nat :=
  if m = 2 then (if isLeapYear y then 29 else 28)
  else if m = 4 ∨ m = 6 ∨ m = 9 ∨ m = 11 then 30
  else 31

/-- Whether the fields form a real calendar date-time (what moment's and
`Date`'s validity checks enforce for these formats). -/
def isValidWallClock (wc : WallClock) : Bool :=
  1 ≤ wc.month && wc.month ≤ 12 &&
  1 ≤ wc.day && wc.day ≤ daysInMonth wc.year wc.month &&
  wc.hour ≤ 23 && wc.minute ≤ 59

/-- Days since 1970-01-01 of a Gregorian civil date (standard
days-from-civil computation, valid for year ≥ 1). -/
def daysFromCivil (y m d : Nat) : Int :=
  let yAdj : Nat := if m ≤ 2 then y - 1 else y
  let era : Nat := yAdj / 400
  let yoe : Nat := yAdj % 400
  let mp : Nat := (m + 9) % 12
  let doy : Nat := (153 * mp + 2) / 5 + (d - 1)
  let doe : Nat := yoe * 365 + yoe / 4 - yoe / 100 + doy
  (era * 146097 + doe : Int) - 719468

/-- Seconds since the Unix epoch of a wall clock read as UTC. -/
def epochSecondsUTC (wc : WallClock) : Int :=
  86400 * daysFromCivil wc.year wc.month wc.day + 3600 * wc.hour + 60 * wc.minute

/-- The fixed UTC offset of Asia/Kolkata, in seconds (+05:30). -/
def istOffsetSeconds : Int := 19800

/-- UTC instant of a wall clock interpreted in Asia/Kolkata (the
`moment.tz(..., "Asia/Kolkata")` interpretation). -/
def kolkataToUTC (wc : WallClock) : Int :=
  epochSecondsUTC wc - istOffsetSeconds

/-- Parse exactly two ASCII digits. -/
def parse2 : List Char → Option (Nat × List Char)
  | c1 :: c2 :: rest =>
    match digitVal c1, digitVal c2 with
    | some d1, some d2 => some (10 * d1 + d2, rest)
    | _, _ => none
  | _ => none

/-- Parse exactly four ASCII digits. -/
def parse4 : List Char → Option (Nat × List Char)
  | c1 :: c2 :: c3 :: c4 :: rest =>
    match digitVal c1, digitVal c2, digitVal c3, digitVal c4 with
    | some d1, some d2, some d3, some d4 =>
      some (1000 * d1 + 100 * d2 + 10 * d3 + d4, rest)
    | _, _, _, _ => none
  | _ => none

/-- Parse a `YYYY-MM-DD` calendar-date segment. -/
def parseYmd (cs : List Char) : Option (Nat × Nat × Nat × List Char) :=
  match parse4 cs with
  | some (y, r1) =>
    match r1 with
    | '-' :: r2 =>
      match parse2 r2 with
      | some (mo, r3) =>
        match r3 with
        | '-' :: r4 =>
          match parse2 r4 with
          | some (d, r5) => some (y, mo, d, r5)
          | none => none
        | _ => none
      | none => none
    | _ => none
  | none => none

/-- Parse an `HH:mm` time-of-day segment. -/
def parseHm (cs : List Char) : Option (Nat × Nat × List Char) :=
  match parse2 cs with
  | some (h, r1) =>
    match r1 with
    | ':' :: r2 =>
      match parse2 r2 with
      | some (mi, r3) => some (h, mi, r3)
      | none => none
    | _ => none
  | none => none

/-- Validity gate shared by the parsers: a parsed field tuple becomes a
wall clock only when it denotes a real calendar date-time. -/
def finishWallClock (y mo d h mi : Nat) : Option WallClock :=
  let wc : WallClock := ⟨y, mo, d, h, mi⟩
  if isValidWallClock wc then some wc else none

/-- Parse a `YYYY-MM-DD<sep>HH:mm` date-time whose single separator
character must satisfy `sep`, consuming the whole input. -/
def parseYmdHmSep (sep : Char → Bool) (cs : List Char) : Option WallClock :=
  match parseYmd cs with
  | some (y, mo, d, r) =>
    match r with
    | c :: r2 =>
      if sep c then
        match parseHm r2 with
        | some (h, mi, r3) => if r3.isEmpty then finishWallClock y mo d h mi else none
        | none => none
      else none
    | [] => none
  | none => none

/-- Model of `moment.tz(combined, "YYYY-MM-DD HH:mm", "Asia/Kolkata")`
parsing (services/notification.js lines 192-196): the format string fixes
a single space between date and time. -/
def parseFormatYmdHm (s : String) : Option WallClock :=
  parseYmdHmSep (fun c => c = ' ') s.data

/-- Model of `moment.tz(appointmentDateTime, "Asia/Kolkata")` parsing
(services/notification.js line 186) on the supported combined date-time
shape: moment's default parsing accepts either a space or a `T` between
the calendar date and the time of day. -/
def parseIsoYmdHm (s : String) : Option WallClock :=
  parseYmdHmSep (fun c => c = ' ' || c = 'T') s.data

/-- The Time Normalizer of `scheduleAppointments` (services/notification.js
lines 182-204 and 236): the combined `appointmentDateTime` shape is parsed
by moment's default parser, the separate shape concatenates
`${date} ${time}` and parses it against the `YYYY-MM-DD HH:mm` format;
either way the wall clock is interpreted in Asia/Kolkata and converted to
a UTC instant. `none` models the InvalidAppointmentDateTime rejection. -/
def normalizeAppointmentInput (appointmentDateTime date time : Option String) :
    Option Int :=
  match appointmentDateTime with
  | some s => (parseIsoYmdHm s).map kolkataToUTC
  | none =>
    match date, time with
    | some d, some t => (parseFormatYmdHm (d ++ " " ++ t)).map kolkataToUTC
    | _, _ => none

/-! ## Data model

Entity records with the fields the appointment core reads and writes.
Instants are rational seconds since the epoch (service durations parse to
possibly fractional minutes). Display-formatting fields (the `time`
string, `stylistName`, notification timestamps and formatted dates) are
not modelled; no claim inspects them. -/

/-- An Appointment document (models/Appointments.js) restricted to the
fields the core logic touches. `oid` stands for the opaque `_id`; `status`
is the schema's paid-status field, distinct from `appointmentStatus`. -/
structure Appointment where
  oid : Nat
  appointmentId : String
  clientId : String
  clientRef : Nat
  clientName : String
  note : String
  date : ℚ
  expiresAt : ℚ
  status : PaidStatus
  appointmentStatus : AppointmentStatus
  companyId : String
  isTrashed : Bool
deriving DecidableEq, Repr

/-- A Payment document (fields written by `scheduleAppointments`). -/
structure Payment where
  companyId : String
  clientId : String
  appointmentId : Nat
  amount : ℚ
  status : PaidStatus
  transactionId : String
deriving DecidableEq, Repr

/-- A Notification document as built by the appointment flows (message,
type, denormalized details, unread flag). -/
structure Notification where
  companyId : String
  message : String
  type : String
  detailsAppointmentRef : Nat
  detailsClientName : String
  detailsStatus : AppointmentStatus
  isRead : Bool
deriving DecidableEq, Repr

/-- NOTIFICATION_MESSAGES.NEW_APPOINTMENT_SCHEDULED. -/
def newAppointmentScheduledMessage : String :=
  "You have a new appointment scheduled."

/-- NOTIFICATION_TYPES.APPOINTMENT. -/
def notificationTypeAppointment : String := "appointment"

/-- JS `padStart(width, "0")` on a decimal rendering. -/
def padStartZeros (width : Nat) (s : String) : String :=
  if s.length < width then String.mk (List.replicate (width - s.length) '0') ++ s
  else s

/-- `generateNextAptId` formatting (utils/idGenerator.js): `#APT` plus the
counter value padded to three digits. -/
def formatAptId (n : Nat) : String := "#APT" ++ padStartZeros 3 (toString n)

/-- `generateNextTransactionId` formatting (utils/idGenerator.js): `#TXN`
plus the counter value padded to four digits. -/
def formatTxnId (n : Nat) : String := "#TXN" ++ padStartZeros 4 (toString n)

/-! ## Status Reconciliation Sweep (controllers/appointment.js 236-293)

`updateAppointmentStatuses(companyId)` issues three `updateMany` calls in
order; each is modelled as a per-document conditional rewrite mapped over
the tenant's collection. -/

/-- First bulk update: Completed where `expiresAt <= now` and status not in
{Completed, Cancelled}, over non-trashed documents of the tenant. -/
def sweepCompletedPass (now : ℚ) (companyId : String) (a : Appointment) : Appointment :=
  if a.isTrashed = false ∧ a.companyId = companyId ∧ a.expiresAt ≤ now ∧
      a.appointmentStatus ≠ .completed ∧ a.appointmentStatus ≠ .cancelled then
    { a with appointmentStatus := .completed }
  else a

/-- Second bulk update: Ongoing where `date <= now < expiresAt` and status
not in {Ongoing, Cancelled}. -/
def sweepOngoingPass (now : ℚ) (companyId : String) (a : Appointment) : Appointment :=
  if a.isTrashed = false ∧ a.companyId = companyId ∧ a.date ≤ now ∧ now < a.expiresAt ∧
      a.appointmentStatus ≠ .ongoing ∧ a.appointmentStatus ≠ .cancelled then
    { a with appointmentStatus := .ongoing }
  else a

/-- Third bulk update: Upcoming where `date > now` and status not in
{Upcoming, Cancelled}. -/
def sweepUpcomingPass (now : ℚ) (companyId : String) (a : Appointment) : Appointment :=
  if a.isTrashed = false ∧ a.companyId = companyId ∧ now < a.date ∧
      a.appointmentStatus ≠ .upcoming ∧ a.appointmentStatus ≠ .cancelled then
    { a with appointmentStatus := .upcoming }
  else a

/-- One sweep tick for a tenant: the three bulk updates in source order. -/
def updateAppointmentStatuses (now : ℚ) (companyId : String)
    (appts : List Appointment) : List Appointment :=
  ((appts.map (sweepCompletedPass now companyId)).map
    (sweepOngoingPass now companyId)).map (sweepUpcomingPass now companyId)

/-- A concrete cancelled appointment with an already-elapsed window. -/
def cancelledAppt : Appointment :=
  { oid := 1, appointmentId := "#APT001", clientId := "cl001", clientRef := 7,
    clientName := "Asha", note := "", date := 100, expiresAt := 200,
    status := .paid, appointmentStatus := .cancelled, companyId := "comp1",
    isTrashed := false }

/-! ## Appointment Update Handler
(`updateAppointmentService`, services/notification.js lines 527-606) -/

/-- TIME_CONSTANTS.TWO_HOURS_IN_MS (constants.js line 825), in seconds. -/
def twoHoursSeconds : ℚ := 7200

/-- Parse a `YYYY-MM-DDTHH:mmZ` string: the grammar `new Date(...)`
accepts for the template `` `${date}T${time}Z` `` built at
services/notification.js lines 552-554. The trailing `Z` makes the wall
clock UTC. -/
def parseDateTimeZ (cs : List Char) : Option WallClock :=
  match parseYmd cs with
  | some (y, mo, d, r) =>
    match r with
    | 'T' :: r2 =>
      match parseHm r2 with
      | some (h, mi, r3) =>
        if r3 = ['Z'] then finishWallClock y mo d h mi else none
      | none => none
    | _ => none
  | none => none

/-- The start instant the update path computes from a supplied date and
time: `new Date(`${date}T${time}Z`)` — the wall clock read as UTC.
`none` models an Invalid Date. -/
def updateStartInstant (date time : String) : Option Int :=
  (parseDateTimeZ (date ++ "T" ++ time ++ "Z").data).map epochSecondsUTC

/-- Modelled from the spec: the start instant claim C5 asserts for the
update path — the same supplied wall clock interpreted in the business
timezone Asia/Kolkata and converted to UTC (as the scheduling path does).
Stated only for comparison against `updateStartInstant`. -/
def updateStartInstantKolkata (date time : String) : Option Int :=
  (parseDateTimeZ (date ++ "T" ++ time ++ "Z").data).map kolkataToUTC

/-- Mongoose cast of a `YYYY-MM-DD` patch string into the `date : Date`
schema field: midnight UTC of that calendar date. -/
def castDateOnly (s : String) : Option Int :=
  match parseYmd s.data with
  | some (y, mo, d, r) =>
    if r = [] then (finishWallClock y mo d 0 0).map epochSecondsUTC else none
  | none => none

/-- The update patch (`updateData`): the fields the handler inspects. -/
structure UpdateData where
  appointmentStatus : Option AppointmentStatus
  date : Option String
  time : Option String
deriving Repr

/-- Errors surfaced by `updateAppointmentService`. -/
inductive UpdateError
  | invalidIdFormat
  | appointmentNotFound
  | onlyUpcomingAppointmentsCanBeCancelled
deriving DecidableEq, Repr

/-- Result of one `updateAppointmentService` call: what it returns or
throws, the stored appointment afterwards, and the notifications the call
appended. -/
structure UpdateOutcome where
  result : Except UpdateError Appointment
  appointment : Appointment
  notifications : List Notification
deriving Repr

/-- `findByIdAndUpdate(id, updateData)`: fields present in the patch
overwrite the document (the `date` string is cast to a Date; a patch
whose date string fails the cast is outside the modelled inputs and keeps
the field). -/
def applyUpdate (appt : Appointment) (upd : UpdateData) : Appointment :=
  { appt with
    appointmentStatus := upd.appointmentStatus.getD appt.appointmentStatus,
    date :=
      match upd.date with
      | some d =>
        match castDateOnly d with
        | some i => (i : ℚ)
        | none => appt.date
      | none => appt.date }

/-- The notification the update path saves (lines 588-603): same message
and type as scheduling, details snapshot the updated appointment. -/
def mkUpdateNotification (companyId : String) (updated : Appointment) : Notification :=
  { companyId := companyId,
    message := newAppointmentScheduledMessage,
    type := notificationTypeAppointment,
    detailsAppointmentRef := updated.oid,
    detailsClientName := updated.clientName,
    detailsStatus := updated.appointmentStatus,
    isRead := false }

/-- `updateAppointmentService` on a found appointment of the company:
a Cancelled request is only legal from Upcoming (else the call throws and
writes nothing); otherwise a patch carrying both a date and a time has
its `appointmentStatus` overwritten by re-classifying against the window
`[start, start + 2h]` where start is `new Date(`${date}T${time}Z`)`
(an Invalid Date makes every comparison false, landing on Upcoming);
then the patch is applied and a notification is saved. -/
def updateAppointmentService (now : ℚ) (appt : Appointment) (upd : UpdateData) :
    UpdateOutcome :=
  if upd.appointmentStatus = some .cancelled ∧
      appt.appointmentStatus ≠ .upcoming then
    { result := .error .onlyUpcomingAppointmentsCanBeCancelled,
      appointment := appt, notifications := [] }
  else
    let upd2 : UpdateData :=
      if upd.appointmentStatus = some .cancelled then upd
      else
        match upd.date, upd.time with
        | some d, some t =>
          let newStatus :=
            match updateStartInstant d t with
            | some start =>
              classifyUpdateStatus now (start : ℚ) ((start : ℚ) + twoHoursSeconds)
            | none => .upcoming
          { upd with appointmentStatus := some newStatus }
        | _, _ => upd
    let updated := applyUpdate appt upd2
    { result := .ok updated,
      appointment := updated,
      notifications := [mkUpdateNotification appt.companyId updated] }

/-- A concrete appointment currently Upcoming. -/
def upcomingAppt : Appointment :=
  { oid := 2, appointmentId := "#APT002", clientId := "cl001", clientRef := 7,
    clientName := "Asha", note := "", date := 100, expiresAt := 200,
    status := .paid, appointmentStatus := .upcoming, companyId := "comp1",
    isTrashed := false }

/-- A concrete appointment currently Ongoing. -/
def ongoingAppt : Appointment :=
  { upcomingAppt with oid := 3, appointmentStatus := .ongoing }

/-- A patch that supplies a new date and time and no status. -/
def datePatch : UpdateData :=
  { appointmentStatus := none, date := some "2025-03-10", time := some "14:30" }

/-- A patch that requests cancellation. -/
def cancelPatch : UpdateData :=
  { appointmentStatus := some .cancelled, date := none, time := none }

/-! ## Appointment Scheduler
(`scheduleAppointments`, services/notification.js lines 175-333)

The collaborator lookups (employee by id, client by code within the
tenant, service by id) and the fallibility of the payment and
notification writes are supplied through an environment record; the
per-tenant stores and the two ID-tracker counters are explicit state. -/

/-- Employee lookup result (the fields the scheduler reads). -/
structure EmployeeRecord where
  employeeName : String
deriving Repr

/-- Client lookup result. -/
structure ClientRecord where
  oid : Nat
  name : String
deriving Repr

/-- Service lookup result: the duration string and the price. -/
structure ServiceRecord where
  duration : String
  price : ℚ
deriving Repr

/-- The request body fields `scheduleAppointments` destructures, plus the
tenant id the middleware attached. -/
structure ScheduleRequest where
  companyId : String
  clientId : String
  service : String
  note : String
  stylistId : String
  paidStatus : PaidStatus
  appointmentDateTime : Option String
  date : Option String
  time : Option String
deriving Repr

/-- The environment of one scheduling call: the clock, the three lookup
results, and whether the payment / notification writes fail. -/
structure ScheduleEnv where
  now : ℚ
  employee : Option EmployeeRecord
  client : Option ClientRecord
  service : Option ServiceRecord
  paymentSaveFails : Bool
  notificationSaveFails : Bool
deriving Repr

/-- The tenant's persisted collections and ID-tracker counters. -/
structure StoreState where
  appointments : List Appointment
  payments : List Payment
  notifications : List Notification
  lastAptId : Nat
  lastTxnId : Nat
  nextOid : Nat
deriving Repr

/-- Completed persistence-layer operations, in execution order. -/
inductive DbEvent
  | genAptId
  | saveAppointment
  | genTxnId
  | savePayment
  | saveNotification
deriving DecidableEq, Repr

/-- Errors a scheduling call can surface. `stringPropertyAssignment`
models the strict-mode TypeError thrown at services/notification.js line
301 when `payment` is still the empty-string primitive (price not
positive) and `payment.transactionId = ...` is executed. -/
inductive ScheduleError
  | invalidAppointmentDateTime
  | stylistNotFound
  | clientNotFound
  | serviceNotFound
  | durationError (e : DurationError)
  | invalidExpireTimeCalculation
  | paymentSaveFailed
  | failedToSaveNotification
  | stringPropertyAssignment
deriving DecidableEq, Repr

/-- The value a successful scheduling call returns (the created
appointment and the echoed time representation). -/
structure ScheduleSuccess where
  appointment : Appointment
  selectedTime : String
deriving Repr

/-- Result of one scheduling call: returned value or thrown error, the
store afterwards, and the completed persistence operations in order. -/
structure ScheduleOutcome where
  result : Except ScheduleError ScheduleSuccess
  state : StoreState
  events : List DbEvent
deriving Repr

/-- The Appointment document `scheduleAppointments` constructs (lines
264-280): code from the freshly incremented tracker, UTC start, expiry at
start plus the resolved duration, status classified at the current
clock, paid status from the request. -/
def builtAppointment (env : ScheduleEnv) (req : ScheduleRequest) (st : StoreState)
    (client : ClientRecord) (startUTC : Int) (durationInMinutes : ℚ) : Appointment :=
  let appointmentDateTimeUTC : ℚ := (startUTC : ℚ)
  let expiresAt : ℚ := appointmentDateTimeUTC + durationInMinutes * 60
  { oid := st.nextOid,
    appointmentId := formatAptId (st.lastAptId + 1),
    clientId := req.clientId,
    clientRef := client.oid,
    clientName := client.name,
    note := req.note,
    date := appointmentDateTimeUTC,
    expiresAt := expiresAt,
    status := req.paidStatus,
    appointmentStatus := classifyScheduleStatus env.now appointmentDateTimeUTC expiresAt,
    companyId := req.companyId,
    isTrashed := false }

/-- The Payment document of lines 286-296, with the transaction code from
the given counter value. -/
def builtPayment (req : ScheduleRequest) (oid : Nat) (price : ℚ) (txn : Nat) : Payment :=
  { companyId := req.companyId,
    clientId := req.clientId,
    appointmentId := oid,
    amount := price,
    status := req.paidStatus,
    transactionId := formatTxnId txn }

/-- The Notification document of lines 310-324 (its `details.paidStatus`
reads the non-existent field `newAppointment.paidStatus`, i.e. undefined,
and is not modelled). -/
def builtScheduleNotification (req : ScheduleRequest) (client : ClientRecord)
    (oid : Nat) (status : AppointmentStatus) : Notification :=
  { companyId := req.companyId,
    message := newAppointmentScheduledMessage,
    type := notificationTypeAppointment,
    detailsAppointmentRef := oid,
    detailsClientName := client.name,
    detailsStatus := status,
    isRead := false }

/-- `scheduleAppointments`: normalize the time input, validate stylist,
client and service, resolve the duration, classify the status, generate
the appointment code (tracker increment) and save the Appointment; when
the price is positive, generate a transaction code, save the Payment,
then generate a second transaction code assigned only to the in-memory
payment object; when the price is not positive, the second
`generateNextTransactionId` still runs and the subsequent property
assignment on the empty-string `payment` throws; finally save the
notification (whose failure propagates out of the call). -/
def scheduleAppointments (env : ScheduleEnv) (req : ScheduleRequest)
    (st : StoreState) : ScheduleOutcome :=
  match normalizeAppointmentInput req.appointmentDateTime req.date req.time with
  | none => ⟨.error .invalidAppointmentDateTime, st, []⟩
  | some startUTC =>
    match env.employee with
    | none => ⟨.error .stylistNotFound, st, []⟩
    | some _employee =>
      match env.client with
      | none => ⟨.error .clientNotFound, st, []⟩
      | some client =>
        match env.service with
        | none => ⟨.error .serviceNotFound, st, []⟩
        | some serviceDetails =>
          match parseDurationToMinutes serviceDetails.duration with
          | .error e => ⟨.error (.durationError e), st, []⟩
          | .ok durationInMinutes =>
            let newAppointment := builtAppointment env req st client startUTC durationInMinutes
            let st1 : StoreState :=
              { st with
                appointments := st.appointments ++ [newAppointment],
                lastAptId := st.lastAptId + 1,
                nextOid := st.nextOid + 1 }
            let ev1 : List DbEvent := [.genAptId, .saveAppointment]
            if serviceDetails.price > 0 then
              if env.paymentSaveFails then
                ⟨.error .paymentSaveFailed,
                 { st1 with lastTxnId := st1.lastTxnId + 1 },
                 ev1 ++ [.genTxnId]⟩
              else
                let payment := builtPayment req newAppointment.oid
                  serviceDetails.price (st1.lastTxnId + 1)
                let st2 : StoreState :=
                  { st1 with payments := st1.payments ++ [payment],
                             lastTxnId := st1.lastTxnId + 1 }
                let st3 : StoreState := { st2 with lastTxnId := st2.lastTxnId + 1 }
                let ev3 : List DbEvent := ev1 ++ [.genTxnId, .savePayment, .genTxnId]
                let notification := builtScheduleNotification req client
                  newAppointment.oid newAppointment.appointmentStatus
                if env.notificationSaveFails then
                  ⟨.error .failedToSaveNotification, st3, ev3⟩
                else
                  ⟨.ok { appointment := newAppointment,
                         selectedTime := req.appointmentDateTime.getD
                           ((req.date.getD "") ++ " " ++ (req.time.getD "")) },
                   { st3 with notifications := st3.notifications ++ [notification] },
                   ev3 ++ [.saveNotification]⟩
            else
              ⟨.error .stringPropertyAssignment,
               { st1 with lastTxnId := st1.lastTxnId + 1 },
               ev1 ++ [.genTxnId]⟩

/-- An empty tenant store with both ID trackers at zero. -/
def emptyState : StoreState :=
  { appointments := [], payments := [], notifications := [],
    lastAptId := 0, lastTxnId := 0, nextOid := 0 }

/-- A concrete stylist lookup result. -/
def sampleEmployee : EmployeeRecord := { employeeName := "E1" }

/-- A concrete client lookup result. -/
def sampleClient : ClientRecord := { oid := 7, name := "Asha" }

/-- A concrete priced service with duration "30 mins". -/
def sampleService : ServiceRecord := { duration := "30 mins", price := 500 }

/-- A concrete zero-price service. -/
def freeService : ServiceRecord := { duration := "30 mins", price := 0 }

/-- A concrete scheduling request using the separate date + time shape. -/
def sampleReq : ScheduleRequest :=
  { companyId := "comp1", clientId := "cl001", service := "svc1", note := "",
    stylistId := "e1", paidStatus := .paid, appointmentDateTime := none,
    date := some "2025-03-10", time := some "14:30" }

/-- A fault-free environment at clock zero with all lookups succeeding. -/
def baseEnv : ScheduleEnv :=
  { now := 0, employee := some sampleEmployee, client := some sampleClient,
    service := some sampleService, paymentSaveFails := false,
    notificationSaveFails := false }

/-- The same environment with a failing notification sink. -/
def notifFailEnv : ScheduleEnv := { baseEnv with notificationSaveFails := true }

/-- The same environment resolving a zero-price service. -/
def freeServiceEnv : ScheduleEnv := { baseEnv with service := some freeService }

/-- Every unit token returned by the duration regex model is one of the
eight literal alternatives. -/
theorem matchDurationChars_unit_mem (cs : List Char) (num : List Char) (u : String)
    (h : matchDurationChars cs = some (num, u)) : u ∈ unitAlternatives := by
  unfold matchDurationChars at h
  split at h
  · exact absurd h (by simp)
  · rename_i numChars unit
    split at h
    · rename_i hmem
      cases h
      exact hmem
    · exact absurd h (by simp)

/-- Schedule-path classification is Upcoming strictly before the start. -/
theorem classifyScheduleStatus_of_lt (now start expiry : ℚ) (h : now < start) :
    classifyScheduleStatus now start expiry = .upcoming := by
  unfold classifyScheduleStatus
  rw [if_pos h]

/-- Schedule-path classification is Ongoing on the closed window. -/
theorem classifyScheduleStatus_of_mem (now start expiry : ℚ)
    (h1 : start ≤ now) (h2 : now ≤ expiry) :
    classifyScheduleStatus now start expiry = .ongoing := by
  unfold classifyScheduleStatus
  rw [if_neg (not_lt.mpr h1), if_pos ⟨h1, h2⟩]

/-- Schedule-path classification is Completed strictly after the expiry. -/
theorem classifyScheduleStatus_of_gt (now start expiry : ℚ)
    (h1 : start ≤ now) (h2 : expiry < now) :
    classifyScheduleStatus now start expiry = .completed := by
  unfold classifyScheduleStatus
  rw [if_neg (not_lt.mpr h1), if_neg]
  exact fun hc => absurd hc.2 (not_le.mpr h2)

/-- Update-path classification is Upcoming strictly before the start
(provided now has not passed the expiry). -/
theorem classifyUpdateStatus_of_lt (now start expiry : ℚ)
    (h1 : now < start) (h2 : now ≤ expiry) :
    classifyUpdateStatus now start expiry = .upcoming := by
  unfold classifyUpdateStatus
  rw [if_neg (fun hc => absurd hc.1 (not_le.mpr h1)), if_neg (not_lt.mpr h2)]

/-- Update-path classification is Ongoing on the closed window. -/
theorem classifyUpdateStatus_of_mem (now start expiry : ℚ)
    (h1 : start ≤ now) (h2 : now ≤ expiry) :
    classifyUpdateStatus now start expiry = .ongoing := by
  unfold classifyUpdateStatus
  rw [if_pos ⟨h1, h2⟩]

/-- Update-path classification is Completed strictly after the expiry. -/
theorem classifyUpdateStatus_of_gt (now start expiry : ℚ) (h2 : expiry < now) :
    classifyUpdateStatus now start expiry = .completed := by
  unfold classifyUpdateStatus
  rw [if_neg (fun hc => absurd hc.2 (not_le.mpr h2)), if_pos h2]

/-- Claim C1 (counterexample): with start = 0 and expiry = 100 (expiry >
start), classifying at now = expiry yields Ongoing, not Completed, in both
the scheduling and the update classifier, refuting the claimed boundary
"Completed when now = expiry". -/
theorem classify_at_expiry_counterexample :
    (0 : ℚ) < 100 ∧
    classifyScheduleStatus 100 0 100 = .ongoing ∧
    classifyScheduleStatus 100 0 100 ≠ .completed ∧
    classifyUpdateStatus 100 0 100 = .ongoing ∧
    classifyUpdateStatus 100 0 100 ≠ .completed := by
  refine ⟨by norm_num, ?_, ?_, ?_, ?_⟩ <;> decide

/-- Claim C1 (amended): for every window with expiry > start, both the
scheduling-path and the update-path classification yield Upcoming at
now = start - 1s, Ongoing at now = start, Ongoing (not Completed) at
now = expiry, and Completed at now = expiry + 1s; the `<=` boundary sends
now = expiry to Ongoing in both classifiers. -/
theorem classify_boundaries (start expiry : ℚ) (h : start < expiry) :
    classifyScheduleStatus (start - 1) start expiry = .upcoming ∧
    classifyScheduleStatus start start expiry = .ongoing ∧
    classifyScheduleStatus expiry start expiry = .ongoing ∧
    classifyScheduleStatus (expiry + 1) start expiry = .completed ∧
    classifyUpdateStatus (start - 1) start expiry = .upcoming ∧
    classifyUpdateStatus start start expiry = .ongoing ∧
    classifyUpdateStatus expiry start expiry = .ongoing ∧
    classifyUpdateStatus (expiry + 1) start expiry = .completed :=
  ⟨classifyScheduleStatus_of_lt _ _ _ (by linarith),
   classifyScheduleStatus_of_mem _ _ _ le_rfl h.le,
   classifyScheduleStatus_of_mem _ _ _ h.le le_rfl,
   classifyScheduleStatus_of_gt _ _ _ (by linarith) (by linarith),
   classifyUpdateStatus_of_lt _ _ _ (by linarith) (by linarith),
   classifyUpdateStatus_of_mem _ _ _ le_rfl h.le,
   classifyUpdateStatus_of_mem _ _ _ h.le le_rfl,
   classifyUpdateStatus_of_gt _ _ _ (by linarith)⟩

/-- Witness for `classify_boundaries` at start = 0, expiry = 100. -/
theorem classify_boundaries_witness :
    (0 : ℚ) < 100 ∧ classifyScheduleStatus 100 0 100 = .ongoing :=
  ⟨by norm_num, (classify_boundaries 0 100 (by norm_num)).2.2.1⟩

/-- Characterization of the Duration Resolver's two error results: the
InvalidDurationFormat error occurs exactly when the regex fails to match,
and the UnsupportedDurationUnit error occurs exactly when the regex
matches with unit token "m" (the only alternative that neither starts
with "min" nor with "h" after lowercasing). -/
theorem parseDuration_error_characterization (s : String) :
    (parseDurationToMinutes s = .error .invalidDurationFormat ↔
      matchDurationChars s.data = none) ∧
    (parseDurationToMinutes s = .error .unsupportedDurationUnit ↔
      ∃ num, matchDurationChars s.data = some (num, "m")) := by
  unfold parseDurationToMinutes
  cases hm : matchDurationChars s.data with
  | none => simp
  | some p =>
    obtain ⟨num, u⟩ := p
    have hmem := matchDurationChars_unit_mem s.data num u hm
    simp only [unitAlternatives] at hmem
    fin_cases hmem <;> simp +decide

/-- Claim C4 (counterexample): the input "5 days" does not reach the
UnsupportedDurationUnit error; the regex rejects it outright and the
resolver raises InvalidDurationFormat instead. -/
theorem parseDuration_days_counterexample :
    parseDurationToMinutes "5 days" = .error .invalidDurationFormat ∧
    parseDurationToMinutes "5 days" ≠ .error .unsupportedDurationUnit := by
  constructor <;> decide

/-- Claim C4 (amended): the Duration Resolver fails with
InvalidDurationFormat exactly when the input does not match the
`<number><unit>` regex — which, since the regex only admits the unit
alternatives minutes/minute/mins/min/hours/hour/h/m, includes "soon" and
also "5 days" — and fails with UnsupportedDurationUnit exactly when the
regex matches with the unit token "m". -/
theorem parseDuration_error_cases :
    parseDurationToMinutes "soon" = .error .invalidDurationFormat ∧
    parseDurationToMinutes "5 days" = .error .invalidDurationFormat ∧
    parseDurationToMinutes "5 m" = .error .unsupportedDurationUnit ∧
    (∀ s : String, parseDurationToMinutes s = .error .invalidDurationFormat ↔
      matchDurationChars s.data = none) ∧
    (∀ s : String, parseDurationToMinutes s = .error .unsupportedDurationUnit ↔
      ∃ num, matchDurationChars s.data = some (num, "m")) :=
  ⟨by decide, by decide, by decide,
   fun s => (parseDuration_error_characterization s).1,
   fun s => (parseDuration_error_characterization s).2⟩

/-- Success of the strict-format parse implies the same result from the
default (ISO-style) parse: the grammars differ only in the admitted
separator set. -/
theorem parseYmdHmSep_mono (sep1 sep2 : Char → Bool)
    (hs : ∀ c, sep1 c = true → sep2 c = true) (cs : List Char) (wc : WallClock)
    (h : parseYmdHmSep sep1 cs = some wc) : parseYmdHmSep sep2 cs = some wc := by
  unfold parseYmdHmSep at h ⊢
  cases hy : parseYmd cs with
  | none => rw [hy] at h; exact absurd h (by simp)
  | some v =>
    obtain ⟨y, mo, d, r⟩ := v
    rw [hy] at h
    dsimp only at h ⊢
    cases r with
    | nil => exact absurd h (by simp)
    | cons c r2 =>
      dsimp only at h ⊢
      by_cases hc : sep1 c = true
      · rw [if_pos hc] at h
        rw [if_pos (hs c hc)]
        exact h
      · rw [if_neg hc] at h
        exact absurd h (by simp)

/-- Claim C8: for any wall-clock date and time (any date and time strings
whose concatenation parses, with `wc` the parsed wall clock), normalizing
via the single combined-string input shape and via the separate
date + time input shape produces the identical UTC instant, namely the
Asia/Kolkata reading of that wall clock. -/
theorem normalize_shape_equivalence (d t : String) (wc : WallClock)
    (h : parseFormatYmdHm (d ++ " " ++ t) = some wc) :
    normalizeAppointmentInput (some (d ++ " " ++ t)) none none
      = normalizeAppointmentInput none (some d) (some t) ∧
    normalizeAppointmentInput none (some d) (some t) = some (kolkataToUTC wc) := by
  have hiso : parseIsoYmdHm (d ++ " " ++ t) = some wc := by
    unfold parseIsoYmdHm
    unfold parseFormatYmdHm at h
    refine parseYmdHmSep_mono _ _ (fun c hc => ?_) _ _ h
    simp only [decide_eq_true_eq] at hc
    simp [hc]
  constructor
  · show (parseIsoYmdHm (d ++ " " ++ t)).map kolkataToUTC
      = (parseFormatYmdHm (d ++ " " ++ t)).map kolkataToUTC
    rw [hiso, h]
  · show (parseFormatYmdHm (d ++ " " ++ t)).map kolkataToUTC = some (kolkataToUTC wc)
    rw [h]
    rfl

/-- Witness for `normalize_shape_equivalence` at 2025-03-10 14:30. -/
theorem normalize_shape_equivalence_witness :
    parseFormatYmdHm ("2025-03-10" ++ " " ++ "14:30") = some ⟨2025, 3, 10, 14, 30⟩ ∧
    normalizeAppointmentInput none (some "2025-03-10") (some "14:30")
      = some (kolkataToUTC ⟨2025, 3, 10, 14, 30⟩) := by
  have h : parseFormatYmdHm ("2025-03-10" ++ " " ++ "14:30") = some ⟨2025, 3, 10, 14, 30⟩ := by
    decide
  exact ⟨h, (normalize_shape_equivalence "2025-03-10" "14:30" ⟨2025, 3, 10, 14, 30⟩ h).2⟩

/-- Claim C6: every one of the sweep's three bulk updates excludes records
whose current status is Cancelled, so a Cancelled appointment is left
exactly as it is by each pass and hence by every sweep tick (stated for an
appointment at the head of the tenant's collection; passes act pointwise). -/
theorem sweep_cancelled_sticky (now : ℚ) (companyId : String) (a : Appointment)
    (h : a.appointmentStatus = .cancelled) :
    sweepCompletedPass now companyId a = a ∧
    sweepOngoingPass now companyId a = a ∧
    sweepUpcomingPass now companyId a = a ∧
    ∀ appts : List Appointment,
      updateAppointmentStatuses now companyId (a :: appts)
        = a :: updateAppointmentStatuses now companyId appts := by
  have hc : sweepCompletedPass now companyId a = a := by
    unfold sweepCompletedPass
    rw [if_neg]
    intro hcond
    exact absurd h hcond.2.2.2.2
  have ho : sweepOngoingPass now companyId a = a := by
    unfold sweepOngoingPass
    rw [if_neg]
    intro hcond
    exact absurd h hcond.2.2.2.2.2
  have hu : sweepUpcomingPass now companyId a = a := by
    unfold sweepUpcomingPass
    rw [if_neg]
    intro hcond
    exact absurd h hcond.2.2.2.2
  refine ⟨hc, ho, hu, fun appts => ?_⟩
  unfold updateAppointmentStatuses
  simp only [List.map_cons, hc, ho, hu]

/-- Witness for `sweep_cancelled_sticky`: a concrete cancelled appointment
whose window is entirely in the past is untouched by a tick. -/
theorem sweep_cancelled_sticky_witness :
    (cancelledAppt.appointmentStatus = AppointmentStatus.cancelled) ∧
    updateAppointmentStatuses 1000 "comp1" [cancelledAppt] = [cancelledAppt] := by
  have h := sweep_cancelled_sticky 1000 "comp1" cancelledAppt rfl
  refine ⟨rfl, ?_⟩
  rw [h.2.2.2 []]
  rfl

/-- Run of the update handler on a patch that carries a date and a time
and does not request Cancelled: shared computation lemma. -/
theorem updateService_datetime_run (now : ℚ) (appt : Appointment)
    (upd : UpdateData) (d t : String) (start : Int)
    (hd : upd.date = some d) (ht : upd.time = some t)
    (hnc : upd.appointmentStatus ≠ some .cancelled)
    (hp : updateStartInstant d t = some start) :
    (updateAppointmentService now appt upd).result
      = .ok ((updateAppointmentService now appt upd).appointment) ∧
    (updateAppointmentService now appt upd).appointment.appointmentStatus
      = classifyUpdateStatus now (start : ℚ) ((start : ℚ) + twoHoursSeconds) ∧
    (updateAppointmentService now appt upd).notifications
      = [mkUpdateNotification appt.companyId
          ((updateAppointmentService now appt upd).appointment)] := by
  unfold updateAppointmentService
  rw [if_neg (fun hc => hnc hc.1)]
  rw [if_neg hnc, hd, ht]
  dsimp only
  rw [hp]
  dsimp only [applyUpdate, Option.getD_some]
  exact ⟨rfl, rfl, rfl⟩

/-- Claim C5 (amended): when the patch supplies a new date and time and
does not request Cancelled, the update succeeds, the stored status is
overwritten with the re-run Status Classifier applied to the window
`[start, start + 2h]`, and a notification is emitted — where `start` is
the supplied wall clock read as UTC (the code appends `Z`), not the
Asia/Kolkata interpretation. -/
theorem update_datetime_reclassification (now : ℚ) (appt : Appointment)
    (upd : UpdateData) (d t : String) (start : Int)
    (hd : upd.date = some d) (ht : upd.time = some t)
    (hnc : upd.appointmentStatus ≠ some .cancelled)
    (hp : updateStartInstant d t = some start) :
    (updateAppointmentService now appt upd).result
      = .ok ((updateAppointmentService now appt upd).appointment) ∧
    (updateAppointmentService now appt upd).appointment.appointmentStatus
      = classifyUpdateStatus now (start : ℚ) ((start : ℚ) + twoHoursSeconds) ∧
    (updateAppointmentService now appt upd).notifications
      = [mkUpdateNotification appt.companyId
          ((updateAppointmentService now appt upd).appointment)] :=
  updateService_datetime_run now appt upd d t start hd ht hnc hp

/-- Witness for `update_datetime_reclassification` at a concrete patch. -/
theorem update_datetime_reclassification_witness :
    datePatch.date = some "2025-03-10" ∧
    updateStartInstant "2025-03-10" "14:30" = some 1741617000 ∧
    (updateAppointmentService 1741617000 upcomingAppt datePatch).appointment.appointmentStatus
      = classifyUpdateStatus 1741617000 ((1741617000 : Int) : ℚ)
          (((1741617000 : Int) : ℚ) + twoHoursSeconds) :=
  ⟨rfl, by decide,
   (update_datetime_reclassification 1741617000 upcomingAppt datePatch
     "2025-03-10" "14:30" 1741617000 rfl rfl (by simp [datePatch]) (by decide)).2.1⟩

/-- Claim C5 (counterexample): the update path reads the supplied wall
clock 2025-03-10 14:30 as UTC instant 1741617000, whereas the
Asia/Kolkata interpretation the claim asserts is 1741597200; taking now
equal to the Kolkata instant, the claim's classification would be Ongoing
(now = start) but the service stores Upcoming. -/
theorem update_timezone_counterexample :
    updateStartInstant "2025-03-10" "14:30" = some 1741617000 ∧
    updateStartInstantKolkata "2025-03-10" "14:30" = some 1741597200 ∧
    updateStartInstant "2025-03-10" "14:30"
      ≠ updateStartInstantKolkata "2025-03-10" "14:30" ∧
    classifyUpdateStatus 1741597200 ((1741597200 : Int) : ℚ)
      (((1741597200 : Int) : ℚ) + twoHoursSeconds) = .ongoing ∧
    (updateAppointmentService 1741597200 upcomingAppt datePatch).appointment.appointmentStatus
      = .upcoming := by
  have hrun := (updateService_datetime_run 1741597200 upcomingAppt datePatch
    "2025-03-10" "14:30" 1741617000 rfl rfl (by simp [datePatch]) (by decide)).2.1
  refine ⟨by decide, by decide, by decide, ?_, ?_⟩
  · apply classifyUpdateStatus_of_mem <;> (push_cast; norm_num [twoHoursSeconds])
  · rw [hrun]
    apply classifyUpdateStatus_of_lt <;> (push_cast; norm_num [twoHoursSeconds])

/-- Claim C7: a Cancelled patch succeeds only from Upcoming — on an
appointment currently Ongoing or Completed the call throws
OnlyUpcomingAppointmentsCanBeCancelled and performs no writes (the stored
appointment is unchanged and no notification is appended), while from
Upcoming it succeeds and stores the Cancelled status. -/
theorem cancel_only_from_upcoming (now : ℚ) (appt : Appointment) (upd : UpdateData)
    (hreq : upd.appointmentStatus = some .cancelled) :
    (appt.appointmentStatus = .ongoing ∨ appt.appointmentStatus = .completed →
      (updateAppointmentService now appt upd).result
        = .error .onlyUpcomingAppointmentsCanBeCancelled ∧
      (updateAppointmentService now appt upd).appointment = appt ∧
      (updateAppointmentService now appt upd).notifications = []) ∧
    (appt.appointmentStatus = .upcoming →
      (updateAppointmentService now appt upd).result
        = .ok ((updateAppointmentService now appt upd).appointment) ∧
      (updateAppointmentService now appt upd).appointment.appointmentStatus
        = .cancelled) := by
  constructor
  · intro hs
    have hneq : appt.appointmentStatus ≠ .upcoming := by
      rcases hs with h | h <;> rw [h] <;> intro hc <;> cases hc
    unfold updateAppointmentService
    rw [if_pos ⟨hreq, hneq⟩]
    exact ⟨rfl, rfl, rfl⟩
  · intro hs
    unfold updateAppointmentService
    rw [if_neg (fun hc => hc.2 hs), if_pos hreq]
    refine ⟨rfl, ?_⟩
    dsimp only [applyUpdate]
    rw [hreq]
    rfl

/-- Witness for `cancel_only_from_upcoming`: cancelling a concrete
Ongoing appointment fails and leaves it untouched. -/
theorem cancel_only_from_upcoming_witness :
    (updateAppointmentService 0 ongoingAppt cancelPatch).result
      = .error .onlyUpcomingAppointmentsCanBeCancelled ∧
    (updateAppointmentService 0 ongoingAppt cancelPatch).appointment = ongoingAppt ∧
    (updateAppointmentService 0 ongoingAppt cancelPatch).notifications = [] :=
  (cancel_only_from_upcoming 0 ongoingAppt cancelPatch rfl).1 (Or.inl rfl)

/-- Outcome of a fully successful scheduling call with a positive price:
appointment, payment and notification all persisted, the appointment-ID
tracker incremented once, the transaction-ID tracker twice. -/
theorem schedule_success_run (env : ScheduleEnv) (req : ScheduleRequest)
    (st : StoreState) (start : Int) (svc : ServiceRecord) (emp : EmployeeRecord)
    (cl : ClientRecord) (v : ℚ)
    (hn : normalizeAppointmentInput req.appointmentDateTime req.date req.time = some start)
    (hemp : env.employee = some emp) (hcl : env.client = some cl)
    (hs : env.service = some svc)
    (hd : parseDurationToMinutes svc.duration = .ok v)
    (hprice : 0 < svc.price)
    (hpf : env.paymentSaveFails = false)
    (hnf : env.notificationSaveFails = false) :
    scheduleAppointments env req st =
      { result := .ok
          { appointment := builtAppointment env req st cl start v,
            selectedTime := req.appointmentDateTime.getD
              ((req.date.getD "") ++ " " ++ (req.time.getD "")) },
        state :=
          { appointments := st.appointments ++ [builtAppointment env req st cl start v],
            payments := st.payments ++
              [builtPayment req st.nextOid svc.price (st.lastTxnId + 1)],
            notifications := st.notifications ++
              [builtScheduleNotification req cl st.nextOid
                (builtAppointment env req st cl start v).appointmentStatus],
            lastAptId := st.lastAptId + 1,
            lastTxnId := st.lastTxnId + 1 + 1,
            nextOid := st.nextOid + 1 },
        events := [.genAptId, .saveAppointment, .genTxnId, .savePayment,
          .genTxnId, .saveNotification] } := by
  unfold scheduleAppointments
  rw [hn, hemp, hcl, hs]
  dsimp only
  rw [hd]
  dsimp only
  rw [if_pos hprice,
    if_neg (fun h => Bool.false_ne_true (hpf ▸ h)),
    if_neg (fun h => Bool.false_ne_true (hnf ▸ h))]
  rfl

/-- Outcome of a scheduling call with positive price whose payment save
fails: the appointment is persisted, the transaction tracker was already
incremented, the error propagates. -/
theorem schedule_payment_failure_run (env : ScheduleEnv) (req : ScheduleRequest)
    (st : StoreState) (start : Int) (svc : ServiceRecord) (emp : EmployeeRecord)
    (cl : ClientRecord) (v : ℚ)
    (hn : normalizeAppointmentInput req.appointmentDateTime req.date req.time = some start)
    (hemp : env.employee = some emp) (hcl : env.client = some cl)
    (hs : env.service = some svc)
    (hd : parseDurationToMinutes svc.duration = .ok v)
    (hprice : 0 < svc.price)
    (hpf : env.paymentSaveFails = true) :
    scheduleAppointments env req st =
      { result := .error .paymentSaveFailed,
        state :=
          { appointments := st.appointments ++ [builtAppointment env req st cl start v],
            payments := st.payments,
            notifications := st.notifications,
            lastAptId := st.lastAptId + 1,
            lastTxnId := st.lastTxnId + 1,
            nextOid := st.nextOid + 1 },
        events := [.genAptId, .saveAppointment, .genTxnId] } := by
  unfold scheduleAppointments
  rw [hn, hemp, hcl, hs]
  dsimp only
  rw [hd]
  dsimp only
  rw [if_pos hprice, if_pos hpf]
  rfl

/-- Outcome of a scheduling call with positive price whose notification
save fails: appointment and payment persisted, both tracker increments
done, the error propagates out of the call. -/
theorem schedule_notification_failure_run (env : ScheduleEnv) (req : ScheduleRequest)
    (st : StoreState) (start : Int) (svc : ServiceRecord) (emp : EmployeeRecord)
    (cl : ClientRecord) (v : ℚ)
    (hn : normalizeAppointmentInput req.appointmentDateTime req.date req.time = some start)
    (hemp : env.employee = some emp) (hcl : env.client = some cl)
    (hs : env.service = some svc)
    (hd : parseDurationToMinutes svc.duration = .ok v)
    (hprice : 0 < svc.price)
    (hpf : env.paymentSaveFails = false)
    (hnf : env.notificationSaveFails = true) :
    scheduleAppointments env req st =
      { result := .error .failedToSaveNotification,
        state :=
          { appointments := st.appointments ++ [builtAppointment env req st cl start v],
            payments := st.payments ++
              [builtPayment req st.nextOid svc.price (st.lastTxnId + 1)],
            notifications := st.notifications,
            lastAptId := st.lastAptId + 1,
            lastTxnId := st.lastTxnId + 1 + 1,
            nextOid := st.nextOid + 1 },
        events := [.genAptId, .saveAppointment, .genTxnId, .savePayment, .genTxnId] } := by
  unfold scheduleAppointments
  rw [hn, hemp, hcl, hs]
  dsimp only
  rw [hd]
  dsimp only
  rw [if_pos hprice,
    if_neg (fun h => Bool.false_ne_true (hpf ▸ h)),
    if_pos hnf]
  rfl

/-- Outcome of a scheduling call whose service price is not positive: the
appointment is persisted with no payment, the transaction tracker is
still incremented once, and the strict-mode TypeError on the
empty-string `payment` aborts the call before any notification. -/
theorem schedule_zero_price_run (env : ScheduleEnv) (req : ScheduleRequest)
    (st : StoreState) (start : Int) (svc : ServiceRecord) (emp : EmployeeRecord)
    (cl : ClientRecord) (v : ℚ)
    (hn : normalizeAppointmentInput req.appointmentDateTime req.date req.time = some start)
    (hemp : env.employee = some emp) (hcl : env.client = some cl)
    (hs : env.service = some svc)
    (hd : parseDurationToMinutes svc.duration = .ok v)
    (hprice : ¬ 0 < svc.price) :
    scheduleAppointments env req st =
      { result := .error .stringPropertyAssignment,
        state :=
          { appointments := st.appointments ++ [builtAppointment env req st cl start v],
            payments := st.payments,
            notifications := st.notifications,
            lastAptId := st.lastAptId + 1,
            lastTxnId := st.lastTxnId + 1,
            nextOid := st.nextOid + 1 },
        events := [.genAptId, .saveAppointment, .genTxnId] } := by
  unfold scheduleAppointments
  rw [hn, hemp, hcl, hs]
  dsimp only
  rw [hd]
  dsimp only
  rw [if_neg hprice]
  rfl

/-- Claim C3: in every scheduling call that reaches persistence, a
zero-price service yields the new Appointment and no Payment write, and a
positive price (with the payment write succeeding) yields the new
Appointment plus exactly one Payment whose amount is the service price
and whose status is the submitted paid status. -/
theorem payment_conditional_creation (env : ScheduleEnv) (req : ScheduleRequest)
    (st : StoreState) (start : Int) (svc : ServiceRecord) (emp : EmployeeRecord)
    (cl : ClientRecord) (v : ℚ)
    (hn : normalizeAppointmentInput req.appointmentDateTime req.date req.time = some start)
    (hemp : env.employee = some emp) (hcl : env.client = some cl)
    (hs : env.service = some svc)
    (hd : parseDurationToMinutes svc.duration = .ok v) :
    (svc.price = 0 →
      (scheduleAppointments env req st).state.appointments
        = st.appointments ++ [builtAppointment env req st cl start v] ∧
      (scheduleAppointments env req st).state.payments = st.payments) ∧
    (0 < svc.price → env.paymentSaveFails = false →
      (scheduleAppointments env req st).state.appointments
        = st.appointments ++ [builtAppointment env req st cl start v] ∧
      (scheduleAppointments env req st).state.payments
        = st.payments ++ [builtPayment req st.nextOid svc.price (st.lastTxnId + 1)] ∧
      (builtPayment req st.nextOid svc.price (st.lastTxnId + 1)).amount = svc.price ∧
      (builtPayment req st.nextOid svc.price (st.lastTxnId + 1)).status = req.paidStatus) := by
  constructor
  · intro hzero
    rw [schedule_zero_price_run env req st start svc emp cl v hn hemp hcl hs hd
      (by rw [hzero]; exact lt_irrefl 0)]
    exact ⟨rfl, rfl⟩
  · intro hpos hpf
    cases hnf : env.notificationSaveFails
    · rw [schedule_success_run env req st start svc emp cl v hn hemp hcl hs hd hpos hpf hnf]
      exact ⟨rfl, rfl, rfl, rfl⟩
    · rw [schedule_notification_failure_run env req st start svc emp cl v hn hemp hcl hs hd
        hpos hpf hnf]
      exact ⟨rfl, rfl, rfl, rfl⟩

/-- Witness for `payment_conditional_creation`: the zero-price run writes
no Payment and the priced run writes one Payment of amount 500. -/
theorem payment_conditional_creation_witness :
    ((scheduleAppointments freeServiceEnv sampleReq emptyState).state.payments
        = emptyState.payments ∧
      (scheduleAppointments freeServiceEnv sampleReq emptyState).state.appointments
        = emptyState.appointments
            ++ [builtAppointment freeServiceEnv sampleReq emptyState sampleClient 1741597200 30]) ∧
    ((scheduleAppointments baseEnv sampleReq emptyState).state.payments
        = emptyState.payments
            ++ [builtPayment sampleReq emptyState.nextOid sampleService.price
                (emptyState.lastTxnId + 1)] ∧
      (builtPayment sampleReq emptyState.nextOid sampleService.price
        (emptyState.lastTxnId + 1)).amount = sampleService.price) := by
  have hfree := (payment_conditional_creation freeServiceEnv sampleReq emptyState 1741597200
    freeService sampleEmployee sampleClient 30 (by decide) rfl rfl rfl (by decide)).1 rfl
  have hpaid := (payment_conditional_creation baseEnv sampleReq emptyState 1741597200
    sampleService sampleEmployee sampleClient 30 (by decide) rfl rfl rfl (by decide)).2
    (by norm_num [sampleService]) rfl
  exact ⟨⟨hfree.2, hfree.1⟩, hpaid.2.1, hpaid.2.2.1⟩

/-- Claim C2 (amended): once the Appointment write has succeeded, a
failure of the Payment write or of the Notification write is re-raised
and fails the overall scheduling call (saveNotification logs and then
rethrows); the already-persisted Appointment — and Payment, when its
write succeeded — are not rolled back. -/
theorem schedule_post_write_failure_propagates (env : ScheduleEnv)
    (req : ScheduleRequest) (st : StoreState) (start : Int) (svc : ServiceRecord)
    (emp : EmployeeRecord) (cl : ClientRecord) (v : ℚ)
    (hn : normalizeAppointmentInput req.appointmentDateTime req.date req.time = some start)
    (hemp : env.employee = some emp) (hcl : env.client = some cl)
    (hs : env.service = some svc)
    (hd : parseDurationToMinutes svc.duration = .ok v)
    (hpos : 0 < svc.price) :
    (env.paymentSaveFails = true →
      (scheduleAppointments env req st).result = .error .paymentSaveFailed ∧
      (scheduleAppointments env req st).state.appointments
        = st.appointments ++ [builtAppointment env req st cl start v]) ∧
    (env.paymentSaveFails = false → env.notificationSaveFails = true →
      (scheduleAppointments env req st).result = .error .failedToSaveNotification ∧
      (scheduleAppointments env req st).state.appointments
        = st.appointments ++ [builtAppointment env req st cl start v] ∧
      (scheduleAppointments env req st).state.payments
        = st.payments ++ [builtPayment req st.nextOid svc.price (st.lastTxnId + 1)]) := by
  constructor
  · intro hpf
    rw [schedule_payment_failure_run env req st start svc emp cl v hn hemp hcl hs hd hpos hpf]
    exact ⟨rfl, rfl⟩
  · intro hpf hnf
    rw [schedule_notification_failure_run env req st start svc emp cl v hn hemp hcl hs hd
      hpos hpf hnf]
    exact ⟨rfl, rfl, rfl⟩

/-- Witness for `schedule_post_write_failure_propagates`: a concrete run
with a failing notification sink throws while keeping the appointment. -/
theorem schedule_post_write_failure_propagates_witness :
    (scheduleAppointments notifFailEnv sampleReq emptyState).result
      = .error .failedToSaveNotification ∧
    (scheduleAppointments notifFailEnv sampleReq emptyState).state.appointments
      = emptyState.appointments
          ++ [builtAppointment notifFailEnv sampleReq emptyState sampleClient 1741597200 30] :=
  have h := (schedule_post_write_failure_propagates notifFailEnv sampleReq emptyState
    1741597200 sampleService sampleEmployee sampleClient 30 (by decide) rfl rfl rfl
    (by decide) (by norm_num [sampleService])).2 rfl rfl
  ⟨h.1, h.2.1⟩

/-- Claim C2 (counterexample): with a failing notification sink, the
concrete scheduling call does not return the created Appointment — it
surfaces the saveNotification error — even though the Appointment (and
the Payment) were already persisted. -/
theorem notification_failure_fails_call_counterexample :
    (scheduleAppointments notifFailEnv sampleReq emptyState).result
      = .error .failedToSaveNotification ∧
    (scheduleAppointments notifFailEnv sampleReq emptyState).result.isOk = false ∧
    (scheduleAppointments notifFailEnv sampleReq emptyState).state.appointments.length = 1 ∧
    (scheduleAppointments notifFailEnv sampleReq emptyState).state.payments.length = 1 := by
  have h := schedule_notification_failure_run notifFailEnv sampleReq emptyState 1741597200
    sampleService sampleEmployee sampleClient 30 (by decide) rfl rfl rfl (by decide)
    (by norm_num [sampleService]) rfl rfl
  rw [h]
  exact ⟨rfl, rfl, rfl, rfl⟩

/-- Claim C9 (counterexample): in the concrete successful run, the
ID-tracker increment (`generateNextAptId`) is the first completed
persistence operation and the Appointment save the second — the code is
generated before, not after, the Appointment document exists. -/
theorem apt_id_before_save_counterexample :
    (scheduleAppointments baseEnv sampleReq emptyState).events
      = [.genAptId, .saveAppointment, .genTxnId, .savePayment, .genTxnId,
         .saveNotification] ∧
    (scheduleAppointments baseEnv sampleReq emptyState).events.take 2
      = [.genAptId, .saveAppointment] := by
  have h := schedule_success_run baseEnv sampleReq emptyState 1741597200
    sampleService sampleEmployee sampleClient 30 (by decide) rfl rfl rfl (by decide)
    (by norm_num [sampleService]) rfl rfl
  rw [h]
  exact ⟨rfl, rfl⟩

/-- Claim C9 (amended): within every scheduleAppointment invocation that
reaches persistence, the tenant-scoped appointment code is generated (the
ID-tracker counter incremented) immediately before — not after — the
Appointment document is written: the first two completed persistence
operations are always the tracker increment followed by the save. -/
theorem apt_id_generated_before_save (env : ScheduleEnv) (req : ScheduleRequest)
    (st : StoreState) (start : Int) (svc : ServiceRecord) (emp : EmployeeRecord)
    (cl : ClientRecord) (v : ℚ)
    (hn : normalizeAppointmentInput req.appointmentDateTime req.date req.time = some start)
    (hemp : env.employee = some emp) (hcl : env.client = some cl)
    (hs : env.service = some svc)
    (hd : parseDurationToMinutes svc.duration = .ok v) :
    (scheduleAppointments env req st).events.take 2
      = [DbEvent.genAptId, DbEvent.saveAppointment] := by
  by_cases hpos : 0 < svc.price
  · cases hpf : env.paymentSaveFails
    · cases hnf : env.notificationSaveFails
      · rw [schedule_success_run env req st start svc emp cl v hn hemp hcl hs hd hpos hpf hnf]
        rfl
      · rw [schedule_notification_failure_run env req st start svc emp cl v hn hemp hcl hs hd
          hpos hpf hnf]
        rfl
    · rw [schedule_payment_failure_run env req st start svc emp cl v hn hemp hcl hs hd hpos hpf]
      rfl
  · rw [schedule_zero_price_run env req st start svc emp cl v hn hemp hcl hs hd hpos]
    rfl

/-- Witness for `apt_id_generated_before_save` on the concrete run. -/
theorem apt_id_generated_before_save_witness :
    (scheduleAppointments baseEnv sampleReq emptyState).events.take 2
      = [DbEvent.genAptId, DbEvent.saveAppointment] :=
  apt_id_generated_before_save baseEnv sampleReq emptyState 1741597200 sampleService
    sampleEmployee sampleClient 30 (by decide) rfl rfl rfl (by decide)

/-- Claim C10: a scheduling call with positive price that reaches the
notification step increments the tenant's transaction-ID tracker twice —
the persisted Payment carries the code of the first increment and the
second lands only on the in-memory object — so the persisted transaction
codes of two consecutive Payments for the tenant are formatTxnId (n + 1)
and formatTxnId (n + 3): they differ by 2, not 1. -/
theorem txn_counter_double_increment (env : ScheduleEnv) (req : ScheduleRequest)
    (st : StoreState) (start : Int) (svc : ServiceRecord) (emp : EmployeeRecord)
    (cl : ClientRecord) (v : ℚ)
    (hn : normalizeAppointmentInput req.appointmentDateTime req.date req.time = some start)
    (hemp : env.employee = some emp) (hcl : env.client = some cl)
    (hs : env.service = some svc)
    (hd : parseDurationToMinutes svc.duration = .ok v)
    (hpos : 0 < svc.price)
    (hpf : env.paymentSaveFails = false)
    (hnf : env.notificationSaveFails = false) :
    (scheduleAppointments env req st).state.lastTxnId = st.lastTxnId + 2 ∧
    (scheduleAppointments env req st).state.payments
      = st.payments ++ [builtPayment req st.nextOid svc.price (st.lastTxnId + 1)] ∧
    (scheduleAppointments env req ((scheduleAppointments env req st).state)).state.payments
      = st.payments
          ++ [builtPayment req st.nextOid svc.price (st.lastTxnId + 1),
              builtPayment req (st.nextOid + 1) svc.price (st.lastTxnId + 3)] ∧
    (builtPayment req st.nextOid svc.price (st.lastTxnId + 1)).transactionId
      = formatTxnId (st.lastTxnId + 1) ∧
    (builtPayment req (st.nextOid + 1) svc.price (st.lastTxnId + 3)).transactionId
      = formatTxnId ((st.lastTxnId + 1) + 2) := by
  have h1 := schedule_success_run env req st start svc emp cl v hn hemp hcl hs hd hpos hpf hnf
  have h2 := schedule_success_run env req ((scheduleAppointments env req st).state) start svc
    emp cl v hn hemp hcl hs hd hpos hpf hnf
  refine ⟨?_, ?_, ?_, rfl, rfl⟩
  · rw [h1]
  · rw [h1]
  · rw [h2, h1]
    dsimp only
    rw [List.append_assoc]
    rfl

/-- Witness for `txn_counter_double_increment` on two consecutive
concrete runs against the empty store. -/
theorem txn_counter_double_increment_witness :
    (scheduleAppointments baseEnv sampleReq emptyState).state.lastTxnId
      = emptyState.lastTxnId + 2 ∧
    (scheduleAppointments baseEnv sampleReq
        ((scheduleAppointments baseEnv sampleReq emptyState).state)).state.payments
      = emptyState.payments
          ++ [builtPayment sampleReq emptyState.nextOid sampleService.price
                (emptyState.lastTxnId + 1),
              builtPayment sampleReq (emptyState.nextOid + 1) sampleService.price
                (emptyState.lastTxnId + 3)] :=
  have h := txn_counter_double_increment baseEnv sampleReq emptyState 1741597200
    sampleService sampleEmployee sampleClient 30 (by decide) rfl rfl rfl (by decide)
    (by norm_num [sampleService]) rfl rfl
  ⟨h.1, h.2.2.1⟩

end SalonERP
